import Mathlib

set_option maxHeartbeats 1000000

/-!
Shallow embedding of `src/web/js/DynamicWorkflowEditor.js`.

The file holds two variants of a node-editor extension.  Both register an
`onNodeCreated` hook that adds a refresh button whose callback
`updateDynamicInputs` (lines 39-81 for the HTTP variant, lines 115-157 for the
host variant) validates the `workflow_path` widget value, obtains a workflow
JSON via `fetchWorkflowJSON`, clears every widget and input whose name starts
with `dyn_`, and adds one widget per scalar field found under each node's
`inputs` object.

JavaScript values are embedded as `JSValue` (numbers as rationals, which is a
faithful superset of the doubles for the operations the code performs:
`Number.isInteger`, truthiness, identity; `NaN` gets its own constructor).
Host-side effects (alerts, console logging, the HTTP request, the host
`runNode` call, label assignment, marking the canvas dirty) are recorded in an
effect trace.  Widget objects carry a numeric `id` standing for JavaScript
object identity, which the handler uses to mutate the refresh button's name.
-/

namespace DynamicWorkflowEditor

/-- JavaScript runtime values, as far as the extension manipulates them.
Numbers carry their rational value (`nan` is separate); objects are ordered
field lists, matching `for ... in` enumeration order. -/
inductive JSValue where
  | str (s : String)
  | num (q : ℚ)
  | nan
  | bool (b : Bool)
  | null
  | undefined
  | obj (fields : List (String × JSValue))
  | arr (elems : List JSValue)

/-- The JavaScript `typeof` operator restricted to `JSValue`. -/
def jsTypeof : JSValue → String
  | .str _ => "string"
  | .num _ => "number"
  | .nan => "number"
  | .bool _ => "boolean"
  | .null => "object"
  | .undefined => "undefined"
  | .obj _ => "object"
  | .arr _ => "object"

/-- `Number.isInteger`: true exactly for integral numbers (false on `NaN`
and on non-numbers). -/
def numberIsInteger : JSValue → Bool
  | .num q => decide (q.den = 1)
  | _ => false

/-- JavaScript truthiness, used by `!path`, `node.inputs || {}` and
`if (!result)`. -/
def jsTruthy : JSValue → Bool
  | .str s => !(s == "")
  | .num q => !(decide (q = 0))
  | .nan => false
  | .bool b => b
  | .null => false
  | .undefined => false
  | .obj _ => true
  | .arr _ => true

/-- The JavaScript `s.startsWith(p)` test: `p` is a prefix of `s`. -/
def jsStartsWith (s p : String) : Bool :=
  p.data.isPrefixOf s.data

/-- Key/value pairs enumerated by `for (const k in v)` together with the
value obtained by the subsequent `v[k]` access.  Objects enumerate their own
fields; strings and arrays enumerate index keys; primitives and
`null`/`undefined` enumerate nothing. -/
def forInEntries : JSValue → List (String × JSValue)
  | .obj fs => fs
  | .str s => s.toList.enum.map (fun p => (toString p.1, JSValue.str (String.mk [p.2])))
  | .arr es => es.enum.map (fun p => (toString p.1, p.2))
  | _ => []

/-- Property access `v.k` (used for `node.inputs`): throws a `TypeError` on
`null`/`undefined`, yields the field (or `undefined`) on objects, and
`undefined` on other primitives. -/
def jsGetProp : JSValue → String → Except String JSValue
  | .null, k => .error ("TypeError: Cannot read properties of null (reading " ++ k ++ ")")
  | .undefined, k => .error ("TypeError: Cannot read properties of undefined (reading " ++ k ++ ")")
  | .obj fs, k => .ok ((fs.lookup k).getD JSValue.undefined)
  | _, _ => .ok JSValue.undefined

/-- Lower-case hex digit for `\u00XX` escapes. -/
def hexDigitChar (n : Nat) : Char :=
  if n < 10 then Char.ofNat (48 + n) else Char.ofNat (87 + n)

/-- `JSON.stringify` escaping of one character inside a string literal. -/
def jsonEscapeChar (c : Char) : String :=
  if c = '"' then "\\\""
  else if c = '\\' then "\\\\"
  else if c = '\x08' then "\\b"
  else if c = '\x0c' then "\\f"
  else if c = '\n' then "\\n"
  else if c = '\r' then "\\r"
  else if c = '\t' then "\\t"
  else if c.toNat < 32 then
    "\\u00" ++ String.mk [hexDigitChar (c.toNat / 16), hexDigitChar (c.toNat % 16)]
  else String.mk [c]

mutual

/-- `JSON.stringify` of a value (numbers are rendered through `toString` on
rationals, an abstraction of JavaScript number formatting; `NaN` and
`undefined` serialize as `null` as in arrays/JSON). -/
def jsonSerialize : JSValue → String
  | .str s => "\"" ++ String.join (s.toList.map jsonEscapeChar) ++ "\""
  | .num q => toString q
  | .nan => "null"
  | .bool b => cond b "true" "false"
  | .null => "null"
  | .undefined => "null"
  | .obj fs => "\x7b" ++ jsonFieldsStr fs ++ "\x7d"
  | .arr es => "[" ++ jsonElemsStr es ++ "]"

/-- Comma-separated serialization of object fields. -/
def jsonFieldsStr : List (String × JSValue) → String
  | [] => ""
  | [(k, v)] => "\"" ++ String.join (k.toList.map jsonEscapeChar) ++ "\":" ++ jsonSerialize v
  | (k, v) :: rest =>
      "\"" ++ String.join (k.toList.map jsonEscapeChar) ++ "\":" ++ jsonSerialize v ++ ","
        ++ jsonFieldsStr rest

/-- Comma-separated serialization of array elements. -/
def jsonElemsStr : List JSValue → String
  | [] => ""
  | [v] => jsonSerialize v
  | v :: rest => jsonSerialize v ++ "," ++ jsonElemsStr rest

end

/-- `JSON.stringify({ path })` — the body of the HTTP request (line 28). -/
def stringifyPathBody (path : JSValue) : String :=
  "\x7b\"path\":" ++ jsonSerialize path ++ "\x7d"

/-- A node widget.  `id` stands for JavaScript object identity (the handler
holds a reference to the refresh button and mutates its `name`). -/
structure Widget where
  id : Nat
  wtype : String
  name : String
  value : JSValue

/-- A node input slot; `meta` stands for all fields other than `name`,
which the code never touches. -/
structure NodeInput where
  name : String
  meta : String

/-- The part of the node (`this`) the handler reads and writes:
`this.widgets`, `this.inputs`, plus a fresh-identity counter for widgets
created by `addWidget`. -/
structure NodeState where
  widgets : List Widget
  inputs : List NodeInput
  nextId : Nat

/-- `this.addWidget(type, name, value)`: appends a widget with a fresh
identity (lines 19 and 73). -/
def addWidget (st : NodeState) (wtype name : String) (value : JSValue) : NodeState :=
  { st with
    widgets := st.widgets ++ [{ id := st.nextId, wtype := wtype, name := name, value := value }],
    nextId := st.nextId + 1 }

/-- `refreshButtonWidget.name = label`: mutates the button through its object
identity (lines 45, 53, 78). -/
def setButtonName (st : NodeState) (btnId : Nat) (label : String) : NodeState :=
  { st with widgets := st.widgets.map (fun w => if w.id = btnId then { w with name := label } else w) }

/-- Observable host effects, in program order. -/
inductive Effect where
  | alertEv (msg : String)
  | consoleError (msg : String)
  | consoleDebug (msg : String)
  | setLabel (label : String)
  | httpPost (url : JSValue) (method : String) (contentType : String) (body : String)
  | runNodeEv (nodeId : Nat)
  | setDirtyEv

/-- Result of one invocation of `updateDynamicInputs`: final node state, the
effect trace, and `threw = some msg` when an exception escaped the handler
(only possible from the rebuild loop, which sits outside the `try`). -/
structure HandlerResult where
  state : NodeState
  effects : List Effect
  threw : Option String

/-- The environment's answer to the `fetch` call: `ok`/`statusText` of the
response and the outcome of `response.json()`. -/
structure HttpResponse where
  ok : Bool
  statusText : String
  jsonBody : Except String JSValue

/-- Behaviour of the network on the one `fetch` call: either the fetch itself
rejects, or a response arrives. -/
inductive FetchEnv where
  | networkError (msg : String)
  | response (r : HttpResponse)

/-- HTTP variant of `fetchWorkflowJSON` (lines 21-37): guard the path, POST
`{ path }` to it, throw on a non-ok status, otherwise parse the JSON body.
Returns the effect trace of the call and its outcome. -/
def fetchWorkflowJSON (path : JSValue) (env : FetchEnv) :
    List Effect × Except String JSValue :=
  if jsTruthy path = false then ([], .error "No path provided")
  else
    let req := Effect.httpPost path "POST" "application/json" (stringifyPathBody path)
    match env with
    | .networkError msg => ([req], .error msg)
    | .response resp =>
        if resp.ok = false then
          ([req], .error ("Failed to load JSON: " ++ resp.statusText))
        else
          match resp.jsonBody with
          | .ok j => ([req], .ok j)
          | .error e => ([req], .error e)

/-- Host variant of `fetchWorkflowJSON` (lines 108-113): run the node through
the host graph and throw when the result is falsy.  The `path` parameter is
accepted and ignored, as in the source. -/
def fetchWorkflowJSONHost (path : JSValue) (selfId : Nat)
    (runNodeResult : Except String JSValue) : List Effect × Except String JSValue :=
  match runNodeResult with
  | .error e => ([Effect.runNodeEv selfId], .error e)
  | .ok r =>
      ([Effect.runNodeEv selfId],
        if jsTruthy r = false then .error "No workflow JSON returned" else .ok r)

/-- One iteration of the inner loop (lines 65-75): scalar values get a widget
named `dyn_<nodeId>_<key>` of the matching type. -/
def dynStepField (nodeId : String) (st : NodeState) (kv : String × JSValue) : NodeState :=
  if ["string", "number", "boolean"].contains (jsTypeof kv.2) then
    let wtype := "STRING"
    let wtype := if jsTypeof kv.2 = "number" then
        (if numberIsInteger kv.2 then "INT" else "FLOAT") else wtype
    let wtype := if jsTypeof kv.2 = "boolean" then "BOOLEAN" else wtype
    addWidget st wtype ("dyn_" ++ nodeId ++ "_" ++ kv.1) kv.2
  else st

/-- Process one node entry (lines 63-75): read `node.inputs` (which throws on
`null`/`undefined` node values), default it to `{}` when falsy, and fold the
inner loop over its entries. -/
def addDynWidgetsForNode (st : NodeState) (nodeId : String) (node : JSValue) :
    NodeState × Option String :=
  match jsGetProp node "inputs" with
  | .error e => (st, some e)
  | .ok v =>
      let inputs := if jsTruthy v then v else JSValue.obj []
      ((forInEntries inputs).foldl (dynStepField nodeId) st, none)

/-- One iteration of the outer loop over node ids: a pending exception aborts
the remaining iterations. -/
def dynStepNode (acc : NodeState × Option String) (p : String × JSValue) :
    NodeState × Option String :=
  match acc.2 with
  | some _ => acc
  | none => addDynWidgetsForNode acc.1 p.1 p.2

/-- The whole rebuild loop (lines 62-76) starting from `st`. -/
def rebuildDynWidgets (st : NodeState) (workflowJSON : JSValue) : NodeState × Option String :=
  (forInEntries workflowJSON).foldl dynStepNode (st, none)

/-- HTTP variant of `updateDynamicInputs` (lines 39-81).  `pathWidgetValue`
is the value of the `workflow_path` widget (`none` when the widget was not
found), `btnId` the identity of the refresh button. -/
def updateDynamicInputs (pathWidgetValue : Option JSValue) (btnId : Nat)
    (env : FetchEnv) (st : NodeState) : HandlerResult :=
  match pathWidgetValue with
  | none =>
      { state := st,
        effects := [Effect.alertEv "Please provide a valid workflow path."],
        threw := none }
  | some pv =>
      if jsTruthy pv = false then
        { state := st,
          effects := [Effect.alertEv "Please provide a valid workflow path."],
          threw := none }
      else
        let st1 := setButtonName st btnId "⏳ Loading..."
        let fr := fetchWorkflowJSON pv env
        match fr.2 with
        | .error e =>
            { state := setButtonName st1 btnId "📝 Refresh Inputs",
              effects := Effect.setLabel "⏳ Loading..." :: fr.1 ++
                [Effect.consoleError ("Error loading workflow JSON: " ++ e),
                 Effect.alertEv "Error loading workflow JSON. See console.",
                 Effect.setLabel "📝 Refresh Inputs"],
              threw := none }
        | .ok wf =>
            let st2 : NodeState :=
              { widgets := st1.widgets.filter (fun w => !(jsStartsWith w.name "dyn_")),
                inputs := st1.inputs.filter (fun i => !(jsStartsWith i.name "dyn_")),
                nextId := st1.nextId }
            match rebuildDynWidgets st2 wf with
            | (st3, some e) =>
                { state := st3,
                  effects := Effect.setLabel "⏳ Loading..." :: fr.1,
                  threw := some e }
            | (st3, none) =>
                { state := setButtonName st3 btnId "📝 Refresh Inputs",
                  effects := Effect.setLabel "⏳ Loading..." :: fr.1 ++
                    [Effect.setLabel "📝 Refresh Inputs", Effect.setDirtyEv,
                     Effect.consoleDebug "Dynamic inputs updated"],
                  threw := none }

/-- Host variant of `updateDynamicInputs` (lines 115-157): textually the same
handler, with the data source delegated to `this.graph.runNode(this.id)`. -/
def updateDynamicInputsHost (pathWidgetValue : Option JSValue) (btnId selfId : Nat)
    (runNodeResult : Except String JSValue) (st : NodeState) : HandlerResult :=
  match pathWidgetValue with
  | none =>
      { state := st,
        effects := [Effect.alertEv "Please provide a valid workflow path."],
        threw := none }
  | some pv =>
      if jsTruthy pv = false then
        { state := st,
          effects := [Effect.alertEv "Please provide a valid workflow path."],
          threw := none }
      else
        let st1 := setButtonName st btnId "⏳ Loading..."
        let fr := fetchWorkflowJSONHost pv selfId runNodeResult
        match fr.2 with
        | .error e =>
            { state := setButtonName st1 btnId "📝 Refresh Inputs",
              effects := Effect.setLabel "⏳ Loading..." :: fr.1 ++
                [Effect.consoleError ("Error loading workflow JSON: " ++ e),
                 Effect.alertEv "Error loading workflow JSON. See console.",
                 Effect.setLabel "📝 Refresh Inputs"],
              threw := none }
        | .ok wf =>
            let st2 : NodeState :=
              { widgets := st1.widgets.filter (fun w => !(jsStartsWith w.name "dyn_")),
                inputs := st1.inputs.filter (fun i => !(jsStartsWith i.name "dyn_")),
                nextId := st1.nextId }
            match rebuildDynWidgets st2 wf with
            | (st3, some e) =>
                { state := st3,
                  effects := Effect.setLabel "⏳ Loading..." :: fr.1,
                  threw := some e }
            | (st3, none) =>
                { state := setButtonName st3 btnId "📝 Refresh Inputs",
                  effects := Effect.setLabel "⏳ Loading..." :: fr.1 ++
                    [Effect.setLabel "📝 Refresh Inputs", Effect.setDirtyEv,
                     Effect.consoleDebug "Dynamic inputs updated"],
                  threw := none }

/-- Branch-free form of the loop body at lines 65-75, derived from the source:
the widget `(type, name, value)` a field `kv` of node `nodeId` contributes, or
`none` for non-scalar fields.  The nested conditional is the zeta-reduced
`let type := ...` chain of lines 69-71. -/
def dynFieldWidget (nodeId : String) (kv : String × JSValue) :
    Option (String × String × JSValue) :=
  if ["string", "number", "boolean"].contains (jsTypeof kv.2) then
    some ((if jsTypeof kv.2 = "boolean" then "BOOLEAN"
           else if jsTypeof kv.2 = "number" then
             (if numberIsInteger kv.2 then "INT" else "FLOAT")
           else "STRING"),
          "dyn_" ++ nodeId ++ "_" ++ kv.1, kv.2)
  else none

/-- Derived per-node description of lines 63-75: the widgets one node entry
contributes (empty when reading `node.inputs` throws, in which case the loop
aborts instead). -/
def nodeDynWidgets (p : String × JSValue) : List (String × String × JSValue) :=
  match jsGetProp p.2 "inputs" with
  | .error _ => []
  | .ok v =>
      (forInEntries (if jsTruthy v then v else JSValue.obj [])).filterMap (dynFieldWidget p.1)

/-- Derived description of the whole rebuild loop: the `(type, name, value)`
triples of the widgets a response contributes, in order. -/
def responseDynWidgets (workflowJSON : JSValue) : List (String × String × JSValue) :=
  (forInEntries workflowJSON).flatMap nodeDynWidgets

/-- Recognizer for the canvas-dirty effect, for counting. -/
def isSetDirty : Effect → Bool
  | .setDirtyEv => true
  | _ => false

/-- Recognizer for label-assignment effects. -/
def isSetLabel : Effect → Bool
  | .setLabel _ => true
  | _ => false

/-- Concrete node state used by the witnesses: the `workflow_path` widget,
the refresh button (identity 1), and one stale dynamic widget and input. -/
def sampleState : NodeState :=
  { widgets := [{ id := 0, wtype := "text", name := "workflow_path", value := .str "wf.json" },
                { id := 1, wtype := "button", name := "📝 Refresh Inputs", value := .undefined },
                { id := 2, wtype := "INT", name := "dyn_9_old", value := .num 7 }],
    inputs := [{ name := "image", meta := "slot0" }, { name := "dyn_9_old", meta := "slot1" }],
    nextId := 3 }

/-- Concrete response covering every scalar and non-scalar field kind, a node
without `inputs`, and a node with a falsy `inputs`. -/
def sampleWorkflow : JSValue :=
  .obj [("3", .obj [("inputs", .obj [("seed", .num 5), ("cfg", .num (15 / 2)),
                                     ("text", .str "hello"), ("flag", .bool true),
                                     ("model", .arr [.str "a"]), ("extra", .obj []),
                                     ("nothing", .null)])]),
        ("4", .obj [("class_type", .str "X")]),
        ("5", .obj [("inputs", .null)])]

/-- Environment answering the fetch with `sampleWorkflow`. -/
def sampleEnv : FetchEnv :=
  .response { ok := true, statusText := "OK", jsonBody := .ok sampleWorkflow }

/-- Environment answering the fetch with a 404 status. -/
def sampleEnvFail : FetchEnv :=
  .response { ok := false, statusText := "Not Found", jsonBody := .error "unreachable" }

/-! ## Basic lemmas -/

theorem jsStartsWith_dynName (nodeId key : String) :
    jsStartsWith ("dyn_" ++ nodeId ++ "_" ++ key) "dyn_" = true := by
  simp [jsStartsWith, List.isPrefixOf_iff_prefix, List.append_assoc]

theorem setButtonName_inputs (st : NodeState) (b : Nat) (l : String) :
    (setButtonName st b l).inputs = st.inputs := rfl

theorem setButtonName_nextId (st : NodeState) (b : Nat) (l : String) :
    (setButtonName st b l).nextId = st.nextId := rfl

theorem mem_setButtonName_name (st : NodeState) (b : Nat) (l : String) :
    ∀ w ∈ (setButtonName st b l).widgets, w.id = b → w.name = l := by
  intro w hw hid
  simp only [setButtonName, List.mem_map] at hw
  obtain ⟨w', _, rfl⟩ := hw
  by_cases hb : w'.id = b
  · simp [hb]
  · simp only [if_neg hb] at hid ⊢
    exact absurd hid hb

theorem setButtonName_restore (st : NodeState) (b : Nat) (L I : String)
    (h : ∀ w ∈ st.widgets, w.id = b → w.name = I) :
    setButtonName (setButtonName st b L) b I = st := by
  obtain ⟨ws, ins, n⟩ := st
  simp only [setButtonName, List.map_map, NodeState.mk.injEq, and_true]
  have h2 : ∀ w ∈ ws,
      ((fun w => if w.id = b then { w with name := I } else w) ∘
        (fun w => if w.id = b then { w with name := L } else w)) w = w := by
    intro w hw
    by_cases hb : w.id = b
    · obtain ⟨wid, wt, wn, wv⟩ := w
      have := h _ hw hb
      simp at hb this
      simp [hb, this]
    · simp [hb]
  rw [List.map_congr_left h2]
  simp

/-- The trace of the HTTP `fetchWorkflowJSON` is empty or a single POST. -/
theorem fetchWorkflowJSON_fx (pv : JSValue) (env : FetchEnv) :
    (fetchWorkflowJSON pv env).1 = [] ∨
    (fetchWorkflowJSON pv env).1 =
      [Effect.httpPost pv "POST" "application/json" (stringifyPathBody pv)] := by
  unfold fetchWorkflowJSON
  split
  · exact Or.inl rfl
  · split
    · exact Or.inr rfl
    · split
      · exact Or.inr rfl
      · split <;> exact Or.inr rfl

/-- The trace of the host `fetchWorkflowJSON` is a single `runNode` call. -/
theorem fetchWorkflowJSONHost_fx (pv : JSValue) (selfId : Nat)
    (runRes : Except String JSValue) :
    (fetchWorkflowJSONHost pv selfId runRes).1 = [Effect.runNodeEv selfId] := by
  unfold fetchWorkflowJSONHost
  split <;> rfl

theorem fetch_fx_no_setDirty (pv : JSValue) (env : FetchEnv) :
    (fetchWorkflowJSON pv env).1.countP isSetDirty = 0 := by
  rcases fetchWorkflowJSON_fx pv env with h | h <;> rw [h] <;> rfl

theorem fetchHost_fx_no_setDirty (pv : JSValue) (selfId : Nat)
    (runRes : Except String JSValue) :
    (fetchWorkflowJSONHost pv selfId runRes).1.countP isSetDirty = 0 := by
  rw [fetchWorkflowJSONHost_fx]
  rfl

theorem fetch_fx_no_setLabel (pv : JSValue) (env : FetchEnv) (l : String) :
    Effect.setLabel l ∉ (fetchWorkflowJSON pv env).1 := by
  rcases fetchWorkflowJSON_fx pv env with h | h <;> rw [h] <;> simp

/-! ## The rebuild loop, characterized field by field -/

/-- The inner loop (lines 65-75) appends exactly the widgets described by
`dynFieldWidget`, with fresh identities, touching nothing else. -/
theorem foldl_dynStepField_spec (nodeId : String) :
    ∀ (l : List (String × JSValue)) (st : NodeState),
      ∃ ws : List Widget,
        l.foldl (dynStepField nodeId) st =
          { widgets := st.widgets ++ ws, inputs := st.inputs,
            nextId := st.nextId + ws.length } ∧
        ws.map (fun w => (w.wtype, w.name, w.value)) = l.filterMap (dynFieldWidget nodeId) ∧
        ∀ w ∈ ws, jsStartsWith w.name "dyn_" = true ∧ st.nextId ≤ w.id := by
  intro l
  induction l with
  | nil =>
      intro st
      exact ⟨[], by simp, by simp, by simp⟩
  | cons kv rest ih =>
      intro st
      cases hscalar : ["string", "number", "boolean"].contains (jsTypeof kv.2) with
      | false =>
          have hstep : dynStepField nodeId st kv = st := by
            unfold dynStepField
            rw [hscalar]
            simp
          obtain ⟨ws, h1, h2, h3⟩ := ih st
          refine ⟨ws, ?_, ?_, h3⟩
          · rw [List.foldl_cons, hstep]
            exact h1
          · rw [List.filterMap_cons]
            have hnone : dynFieldWidget nodeId kv = none := by
              unfold dynFieldWidget
              rw [hscalar]
              simp
            rw [hnone]
            exact h2
      | true =>
          have hstep : dynStepField nodeId st kv =
              addWidget st
                (if jsTypeof kv.2 = "boolean" then "BOOLEAN"
                 else if jsTypeof kv.2 = "number" then
                   (if numberIsInteger kv.2 then "INT" else "FLOAT")
                 else "STRING")
                ("dyn_" ++ nodeId ++ "_" ++ kv.1) kv.2 := by
            unfold dynStepField
            rw [hscalar]
            simp
          obtain ⟨ws, h1, h2, h3⟩ := ih (addWidget st
            (if jsTypeof kv.2 = "boolean" then "BOOLEAN"
             else if jsTypeof kv.2 = "number" then
               (if numberIsInteger kv.2 then "INT" else "FLOAT")
             else "STRING")
            ("dyn_" ++ nodeId ++ "_" ++ kv.1) kv.2)
          refine ⟨{ id := st.nextId,
                    wtype := (if jsTypeof kv.2 = "boolean" then "BOOLEAN"
                              else if jsTypeof kv.2 = "number" then
                                (if numberIsInteger kv.2 then "INT" else "FLOAT")
                              else "STRING"),
                    name := "dyn_" ++ nodeId ++ "_" ++ kv.1, value := kv.2 } :: ws, ?_, ?_, ?_⟩
          · rw [List.foldl_cons, hstep, h1]
            simp only [addWidget, NodeState.mk.injEq, List.append_assoc, List.singleton_append,
              List.length_cons, and_true, true_and]
            omega
          · rw [List.filterMap_cons]
            have hsome : dynFieldWidget nodeId kv =
                some ((if jsTypeof kv.2 = "boolean" then "BOOLEAN"
                       else if jsTypeof kv.2 = "number" then
                         (if numberIsInteger kv.2 then "INT" else "FLOAT")
                       else "STRING"),
                      "dyn_" ++ nodeId ++ "_" ++ kv.1, kv.2) := by
              unfold dynFieldWidget
              rw [hscalar]
              simp
            rw [hsome, List.map_cons, h2]
          · intro w hw
            rcases List.mem_cons.1 hw with rfl | hmem
            · exact ⟨jsStartsWith_dynName nodeId kv.1, Nat.le_refl _⟩
            · obtain ⟨hpre, hle⟩ := h3 w hmem
              refine ⟨hpre, ?_⟩
              simp only [addWidget] at hle
              omega

/-- A pending exception freezes the outer loop. -/
theorem foldl_dynStepNode_frozen (l : List (String × JSValue)) (st : NodeState) (e : String) :
    l.foldl dynStepNode (st, some e) = (st, some e) := by
  induction l with
  | nil => rfl
  | cons p rest ih => rw [List.foldl_cons]; exact ih

/-- Whether the outer loop throws depends only on the workflow JSON, not on
the starting widget state. -/
theorem foldl_dynStepNode_err_indep :
    ∀ (l : List (String × JSValue)) (st st' : NodeState),
      (l.foldl dynStepNode (st, none)).2 = (l.foldl dynStepNode (st', none)).2 := by
  intro l
  induction l with
  | nil => intro st st'; rfl
  | cons p rest ih =>
      intro st st'
      rw [List.foldl_cons, List.foldl_cons]
      cases hj : jsGetProp p.2 "inputs" with
      | error e =>
          have h1 : dynStepNode (st, none) p = (st, some e) := by
            simp [dynStepNode, addDynWidgetsForNode, hj]
          have h2 : dynStepNode (st', none) p = (st', some e) := by
            simp [dynStepNode, addDynWidgetsForNode, hj]
          rw [h1, h2, foldl_dynStepNode_frozen, foldl_dynStepNode_frozen]
      | ok v =>
          have h1 : dynStepNode (st, none) p =
              ((forInEntries (if jsTruthy v then v else JSValue.obj [])).foldl
                (dynStepField p.1) st, none) := by
            simp [dynStepNode, addDynWidgetsForNode, hj]
          have h2 : dynStepNode (st', none) p =
              ((forInEntries (if jsTruthy v then v else JSValue.obj [])).foldl
                (dynStepField p.1) st', none) := by
            simp [dynStepNode, addDynWidgetsForNode, hj]
          rw [h1, h2]
          exact ih _ _

theorem rebuildDynWidgets_err_indep (wf : JSValue) (st st' : NodeState) :
    (rebuildDynWidgets st wf).2 = (rebuildDynWidgets st' wf).2 :=
  foldl_dynStepNode_err_indep (forInEntries wf) st st'

/-- When the outer loop completes, it appends exactly the widgets described by
`responseDynWidgets`, with fresh identities, touching nothing else. -/
theorem foldl_dynStepNode_spec :
    ∀ (l : List (String × JSValue)) (st : NodeState),
      (l.foldl dynStepNode (st, none)).2 = none →
      ∃ ws : List Widget,
        l.foldl dynStepNode (st, none) =
          ({ widgets := st.widgets ++ ws, inputs := st.inputs,
             nextId := st.nextId + ws.length }, none) ∧
        ws.map (fun w => (w.wtype, w.name, w.value)) = l.flatMap nodeDynWidgets ∧
        ∀ w ∈ ws, jsStartsWith w.name "dyn_" = true ∧ st.nextId ≤ w.id := by
  intro l
  induction l with
  | nil =>
      intro st _
      exact ⟨[], by simp, by simp, by simp⟩
  | cons p rest ih =>
      intro st hnone
      rw [List.foldl_cons] at hnone ⊢
      cases hj : jsGetProp p.2 "inputs" with
      | error e =>
          have hstep : dynStepNode (st, none) p = (st, some e) := by
            simp [dynStepNode, addDynWidgetsForNode, hj]
          rw [hstep, foldl_dynStepNode_frozen] at hnone
          exact absurd hnone (by simp)
      | ok v =>
          have hstep : dynStepNode (st, none) p =
              ((forInEntries (if jsTruthy v then v else JSValue.obj [])).foldl
                (dynStepField p.1) st, none) := by
            simp [dynStepNode, addDynWidgetsForNode, hj]
          rw [hstep] at hnone ⊢
          obtain ⟨ws1, hin1, hin2, hin3⟩ :=
            foldl_dynStepField_spec p.1 (forInEntries (if jsTruthy v then v else JSValue.obj [])) st
          rw [hin1] at hnone ⊢
          obtain ⟨ws2, h1, h2, h3⟩ := ih _ hnone
          refine ⟨ws1 ++ ws2, ?_, ?_, ?_⟩
          · rw [h1]
            simp only [Prod.mk.injEq, NodeState.mk.injEq, List.append_assoc,
              List.length_append, and_true, true_and]
            omega
          · rw [List.map_append, hin2, h2, List.flatMap_cons]
            have : nodeDynWidgets p =
                (forInEntries (if jsTruthy v then v else JSValue.obj [])).filterMap
                  (dynFieldWidget p.1) := by
              simp [nodeDynWidgets, hj]
            rw [this]
          · intro w hw
            rcases List.mem_append.1 hw with hmem | hmem
            · exact hin3 w hmem
            · obtain ⟨hpre, hle⟩ := h3 w hmem
              refine ⟨hpre, ?_⟩
              simp only at hle
              omega

/-! ## Branch equations for the two handlers -/

theorem updateDynamicInputs_missing (pwv : Option JSValue) (btnId : Nat) (env : FetchEnv)
    (st : NodeState)
    (h : (match pwv with | none => false | some v => jsTruthy v) = false) :
    updateDynamicInputs pwv btnId env st =
      { state := st, effects := [Effect.alertEv "Please provide a valid workflow path."],
        threw := none } := by
  cases pwv with
  | none => rfl
  | some pv =>
      simp only at h
      unfold updateDynamicInputs
      simp only [h, if_true]

theorem updateDynamicInputsHost_missing (pwv : Option JSValue) (btnId selfId : Nat)
    (runRes : Except String JSValue) (st : NodeState)
    (h : (match pwv with | none => false | some v => jsTruthy v) = false) :
    updateDynamicInputsHost pwv btnId selfId runRes st =
      { state := st, effects := [Effect.alertEv "Please provide a valid workflow path."],
        threw := none } := by
  cases pwv with
  | none => rfl
  | some pv =>
      simp only at h
      unfold updateDynamicInputsHost
      simp only [h, if_true]

theorem updateDynamicInputs_fetch_error (pv : JSValue) (btnId : Nat) (env : FetchEnv)
    (st : NodeState) (e : String)
    (hp : jsTruthy pv = true) (hf : (fetchWorkflowJSON pv env).2 = .error e) :
    updateDynamicInputs (some pv) btnId env st =
      { state := setButtonName (setButtonName st btnId "⏳ Loading...") btnId "📝 Refresh Inputs",
        effects := Effect.setLabel "⏳ Loading..." :: (fetchWorkflowJSON pv env).1 ++
          [Effect.consoleError ("Error loading workflow JSON: " ++ e),
           Effect.alertEv "Error loading workflow JSON. See console.",
           Effect.setLabel "📝 Refresh Inputs"],
        threw := none } := by
  unfold updateDynamicInputs
  simp only [hp, hf, Bool.true_eq_false, if_false]

theorem updateDynamicInputsHost_fetch_error (pv : JSValue) (btnId selfId : Nat)
    (runRes : Except String JSValue) (st : NodeState) (e : String)
    (hp : jsTruthy pv = true) (hf : (fetchWorkflowJSONHost pv selfId runRes).2 = .error e) :
    updateDynamicInputsHost (some pv) btnId selfId runRes st =
      { state := setButtonName (setButtonName st btnId "⏳ Loading...") btnId "📝 Refresh Inputs",
        effects := Effect.setLabel "⏳ Loading..." :: (fetchWorkflowJSONHost pv selfId runRes).1 ++
          [Effect.consoleError ("Error loading workflow JSON: " ++ e),
           Effect.alertEv "Error loading workflow JSON. See console.",
           Effect.setLabel "📝 Refresh Inputs"],
        threw := none } := by
  unfold updateDynamicInputsHost
  simp only [hp, hf, Bool.true_eq_false, if_false]

theorem updateDynamicInputs_success_eq (pv : JSValue) (btnId : Nat) (env : FetchEnv)
    (st : NodeState) (wf : JSValue) (st3 : NodeState)
    (hp : jsTruthy pv = true) (hf : (fetchWorkflowJSON pv env).2 = .ok wf)
    (hreb : rebuildDynWidgets
      { widgets := (setButtonName st btnId "⏳ Loading...").widgets.filter
          (fun w => !(jsStartsWith w.name "dyn_")),
        inputs := (setButtonName st btnId "⏳ Loading...").inputs.filter
          (fun i => !(jsStartsWith i.name "dyn_")),
        nextId := (setButtonName st btnId "⏳ Loading...").nextId } wf = (st3, none)) :
    updateDynamicInputs (some pv) btnId env st =
      { state := setButtonName st3 btnId "📝 Refresh Inputs",
        effects := Effect.setLabel "⏳ Loading..." :: (fetchWorkflowJSON pv env).1 ++
          [Effect.setLabel "📝 Refresh Inputs", Effect.setDirtyEv,
           Effect.consoleDebug "Dynamic inputs updated"],
        threw := none } := by
  unfold updateDynamicInputs
  simp only [hp, hf, Bool.true_eq_false, if_false, hreb]

theorem updateDynamicInputs_rebuild_throw (pv : JSValue) (btnId : Nat) (env : FetchEnv)
    (st : NodeState) (wf : JSValue) (st3 : NodeState) (e : String)
    (hp : jsTruthy pv = true) (hf : (fetchWorkflowJSON pv env).2 = .ok wf)
    (hreb : rebuildDynWidgets
      { widgets := (setButtonName st btnId "⏳ Loading...").widgets.filter
          (fun w => !(jsStartsWith w.name "dyn_")),
        inputs := (setButtonName st btnId "⏳ Loading...").inputs.filter
          (fun i => !(jsStartsWith i.name "dyn_")),
        nextId := (setButtonName st btnId "⏳ Loading...").nextId } wf = (st3, some e)) :
    updateDynamicInputs (some pv) btnId env st =
      { state := st3,
        effects := Effect.setLabel "⏳ Loading..." :: (fetchWorkflowJSON pv env).1,
        threw := some e } := by
  unfold updateDynamicInputs
  simp only [hp, hf, Bool.true_eq_false, if_false, hreb]

theorem updateDynamicInputsHost_success_eq (pv : JSValue) (btnId selfId : Nat)
    (runRes : Except String JSValue) (st : NodeState) (wf : JSValue) (st3 : NodeState)
    (hp : jsTruthy pv = true) (hf : (fetchWorkflowJSONHost pv selfId runRes).2 = .ok wf)
    (hreb : rebuildDynWidgets
      { widgets := (setButtonName st btnId "⏳ Loading...").widgets.filter
          (fun w => !(jsStartsWith w.name "dyn_")),
        inputs := (setButtonName st btnId "⏳ Loading...").inputs.filter
          (fun i => !(jsStartsWith i.name "dyn_")),
        nextId := (setButtonName st btnId "⏳ Loading...").nextId } wf = (st3, none)) :
    updateDynamicInputsHost (some pv) btnId selfId runRes st =
      { state := setButtonName st3 btnId "📝 Refresh Inputs",
        effects := Effect.setLabel "⏳ Loading..." :: (fetchWorkflowJSONHost pv selfId runRes).1 ++
          [Effect.setLabel "📝 Refresh Inputs", Effect.setDirtyEv,
           Effect.consoleDebug "Dynamic inputs updated"],
        threw := none } := by
  unfold updateDynamicInputsHost
  simp only [hp, hf, Bool.true_eq_false, if_false, hreb]

theorem updateDynamicInputsHost_rebuild_throw (pv : JSValue) (btnId selfId : Nat)
    (runRes : Except String JSValue) (st : NodeState) (wf : JSValue) (st3 : NodeState) (e : String)
    (hp : jsTruthy pv = true) (hf : (fetchWorkflowJSONHost pv selfId runRes).2 = .ok wf)
    (hreb : rebuildDynWidgets
      { widgets := (setButtonName st btnId "⏳ Loading...").widgets.filter
          (fun w => !(jsStartsWith w.name "dyn_")),
        inputs := (setButtonName st btnId "⏳ Loading...").inputs.filter
          (fun i => !(jsStartsWith i.name "dyn_")),
        nextId := (setButtonName st btnId "⏳ Loading...").nextId } wf = (st3, some e)) :
    updateDynamicInputsHost (some pv) btnId selfId runRes st =
      { state := st3,
        effects := Effect.setLabel "⏳ Loading..." :: (fetchWorkflowJSONHost pv selfId runRes).1,
        threw := some e } := by
  unfold updateDynamicInputsHost
  simp only [hp, hf, Bool.true_eq_false, if_false, hreb]

/-! ## The success path of the handler, characterized -/

theorem map_rename_restore (ws : List Widget) (b : Nat) (L I : String)
    (h : ∀ w ∈ ws, w.id = b → w.name = I) :
    (ws.map (fun w => if w.id = b then { w with name := L } else w)).map
      (fun w => if w.id = b then { w with name := I } else w) = ws := by
  rw [List.map_map]
  have h2 : ∀ w ∈ ws,
      ((fun w => if w.id = b then { w with name := I } else w) ∘
        (fun w => if w.id = b then { w with name := L } else w)) w = w := by
    intro w hw
    by_cases hb : w.id = b
    · obtain ⟨wid, wt, wn, wv⟩ := w
      have := h _ hw hb
      simp at hb this
      simp [hb, this]
    · simp [hb]
  rw [List.map_congr_left h2]
  simp

theorem map_rename_id (ws : List Widget) (b : Nat) (I : String)
    (h : ∀ w ∈ ws, w.id ≠ b) :
    ws.map (fun w => if w.id = b then { w with name := I } else w) = ws := by
  have h2 : ∀ w ∈ ws, (fun w => if w.id = b then { w with name := I } else w) w = w := by
    intro w hw
    simp [h w hw]
  rw [List.map_congr_left h2]
  simp

/-- Renaming the (non-dynamic) button commutes with the `dyn_` filter of
line 58. -/
theorem filter_setButtonName (st : NodeState) (b : Nat)
    (hbtn : ∀ w ∈ st.widgets, w.id = b → w.name = "📝 Refresh Inputs") :
    (setButtonName st b "⏳ Loading...").widgets.filter (fun w => !(jsStartsWith w.name "dyn_")) =
      (st.widgets.filter (fun w => !(jsStartsWith w.name "dyn_"))).map
        (fun w => if w.id = b then { w with name := "⏳ Loading..." } else w) := by
  show (st.widgets.map _).filter _ = _
  rw [List.filter_map]
  have h2 : ∀ w ∈ st.widgets,
      ((fun w => !(jsStartsWith w.name "dyn_")) ∘
        (fun w => if w.id = b then { w with name := "⏳ Loading..." } else w)) w =
      (fun w => !(jsStartsWith w.name "dyn_")) w := by
    intro w hw
    by_cases hb : w.id = b
    · have hn := hbtn w hw hb
      simp only [Function.comp_apply, if_pos hb]
      rw [hn]
      decide
    · simp [hb]
  rw [List.filter_congr h2]

/-- `rebuildDynWidgets` restated through `responseDynWidgets`. -/
theorem rebuildDynWidgets_spec (wf : JSValue) (st : NodeState)
    (h : (rebuildDynWidgets st wf).2 = none) :
    ∃ ws : List Widget,
      rebuildDynWidgets st wf =
        ({ widgets := st.widgets ++ ws, inputs := st.inputs,
           nextId := st.nextId + ws.length }, none) ∧
      ws.map (fun w => (w.wtype, w.name, w.value)) = responseDynWidgets wf ∧
      ∀ w ∈ ws, jsStartsWith w.name "dyn_" = true ∧ st.nextId ≤ w.id :=
  foldl_dynStepNode_spec (forInEntries wf) st h

/-- Full characterization of a successful HTTP-variant refresh: the final
state is the old state minus its `dyn_`-prefixed widgets and inputs, plus the
widgets described by `responseDynWidgets`, with fresh identities; the button
label is restored; the trace ends with the label restore, the canvas-dirty
mark and the debug log. -/
theorem updateDynamicInputs_ok_spec (pv : JSValue) (btnId : Nat) (env : FetchEnv)
    (st : NodeState) (wf : JSValue)
    (hp : jsTruthy pv = true)
    (hf : (fetchWorkflowJSON pv env).2 = .ok wf)
    (hbtn : ∀ w ∈ st.widgets, w.id = btnId → w.name = "📝 Refresh Inputs")
    (hid : btnId < st.nextId)
    (hok : (updateDynamicInputs (some pv) btnId env st).threw = none) :
    ∃ ws : List Widget,
      (updateDynamicInputs (some pv) btnId env st).state =
        { widgets := st.widgets.filter (fun w => !(jsStartsWith w.name "dyn_")) ++ ws,
          inputs := st.inputs.filter (fun i => !(jsStartsWith i.name "dyn_")),
          nextId := st.nextId + ws.length } ∧
      ws.map (fun w => (w.wtype, w.name, w.value)) = responseDynWidgets wf ∧
      (∀ w ∈ ws, jsStartsWith w.name "dyn_" = true ∧ st.nextId ≤ w.id) ∧
      (updateDynamicInputs (some pv) btnId env st).effects =
        Effect.setLabel "⏳ Loading..." :: (fetchWorkflowJSON pv env).1 ++
          [Effect.setLabel "📝 Refresh Inputs", Effect.setDirtyEv,
           Effect.consoleDebug "Dynamic inputs updated"] := by
  rcases hreb : rebuildDynWidgets
      { widgets := (setButtonName st btnId "⏳ Loading...").widgets.filter
          (fun w => !(jsStartsWith w.name "dyn_")),
        inputs := (setButtonName st btnId "⏳ Loading...").inputs.filter
          (fun i => !(jsStartsWith i.name "dyn_")),
        nextId := (setButtonName st btnId "⏳ Loading...").nextId } wf with ⟨st3, oe⟩
  cases oe with
  | some e =>
      rw [updateDynamicInputs_rebuild_throw pv btnId env st wf st3 e hp hf hreb] at hok
      exact absurd hok (by simp)
  | none =>
      have heq := updateDynamicInputs_success_eq pv btnId env st wf st3 hp hf hreb
      have h2 : (rebuildDynWidgets
          { widgets := (setButtonName st btnId "⏳ Loading...").widgets.filter
              (fun w => !(jsStartsWith w.name "dyn_")),
            inputs := (setButtonName st btnId "⏳ Loading...").inputs.filter
              (fun i => !(jsStartsWith i.name "dyn_")),
            nextId := (setButtonName st btnId "⏳ Loading...").nextId } wf).2 = none := by
        rw [hreb]
      obtain ⟨ws, hspec, hsig, hprops⟩ := rebuildDynWidgets_spec wf _ h2
      rw [hreb] at hspec
      have hst3 : st3 =
          { widgets := (setButtonName st btnId "⏳ Loading...").widgets.filter
              (fun w => !(jsStartsWith w.name "dyn_")) ++ ws,
            inputs := (setButtonName st btnId "⏳ Loading...").inputs.filter
              (fun i => !(jsStartsWith i.name "dyn_")),
            nextId := (setButtonName st btnId "⏳ Loading...").nextId + ws.length } := by
        have := congrArg Prod.fst hspec
        simpa using this
      refine ⟨ws, ?_, hsig, ?_, by rw [heq]⟩
      · rw [heq]
        have hws_id : ∀ w ∈ ws, w.id ≠ btnId := by
          intro w hw
          have := (hprops w hw).2
          simp only [setButtonName_nextId] at this
          omega
        show setButtonName st3 btnId "📝 Refresh Inputs" = _
        rw [hst3, filter_setButtonName st btnId hbtn, setButtonName_inputs, setButtonName_nextId]
        simp only [setButtonName, List.map_append]
        rw [map_rename_restore _ btnId _ _
          (by intro w hw hb; exact hbtn w (List.mem_filter.1 hw).1 hb),
          map_rename_id _ btnId _ hws_id]
      · intro w hw
        obtain ⟨hpre, hle⟩ := hprops w hw
        simp only [setButtonName_nextId] at hle
        exact ⟨hpre, hle⟩

/-! ## Further helper lemmas -/

theorem fetchWorkflowJSON_fx_of_truthy (pv : JSValue) (env : FetchEnv)
    (hp : jsTruthy pv = true) :
    (fetchWorkflowJSON pv env).1 =
      [Effect.httpPost pv "POST" "application/json" (stringifyPathBody pv)] := by
  unfold fetchWorkflowJSON
  simp only [hp, Bool.true_eq_false, if_false]
  cases env with
  | networkError msg => rfl
  | response resp =>
      obtain ⟨ok, stx, jb⟩ := resp
      cases ok with
      | false => simp
      | true =>
          cases jb with
          | ok j => simp
          | error e2 => simp

theorem fetchWorkflowJSON_ok_result (pv : JSValue) (resp : HttpResponse) (j : JSValue)
    (hp : jsTruthy pv = true) (hok : resp.ok = true) (hj : resp.jsonBody = .ok j) :
    (fetchWorkflowJSON pv (.response resp)).2 = .ok j := by
  unfold fetchWorkflowJSON
  simp [hp, hok, hj]

theorem fetchWorkflowJSON_notok_result (pv : JSValue) (resp : HttpResponse)
    (hp : jsTruthy pv = true) (hok : resp.ok = false) :
    (fetchWorkflowJSON pv (.response resp)).2 =
      .error ("Failed to load JSON: " ++ resp.statusText) := by
  unfold fetchWorkflowJSON
  simp [hp, hok]

/-- Whether the handler throws depends only on the fetched workflow JSON. -/
theorem updateDynamicInputs_threw_eq (pv : JSValue) (btnId : Nat) (env : FetchEnv)
    (st : NodeState) (wf : JSValue)
    (hp : jsTruthy pv = true) (hf : (fetchWorkflowJSON pv env).2 = .ok wf) :
    (updateDynamicInputs (some pv) btnId env st).threw =
      (rebuildDynWidgets { widgets := [], inputs := [], nextId := 0 } wf).2 := by
  rcases hreb : rebuildDynWidgets
      { widgets := (setButtonName st btnId "⏳ Loading...").widgets.filter
          (fun w => !(jsStartsWith w.name "dyn_")),
        inputs := (setButtonName st btnId "⏳ Loading...").inputs.filter
          (fun i => !(jsStartsWith i.name "dyn_")),
        nextId := (setButtonName st btnId "⏳ Loading...").nextId } wf with ⟨st3, oe⟩
  have hsnd := congrArg Prod.snd hreb
  simp only at hsnd
  cases oe with
  | some e =>
      rw [updateDynamicInputs_rebuild_throw pv btnId env st wf st3 e hp hf hreb]
      rw [← rebuildDynWidgets_err_indep wf _ { widgets := [], inputs := [], nextId := 0 }, hsnd]
  | none =>
      rw [updateDynamicInputs_success_eq pv btnId env st wf st3 hp hf hreb]
      rw [← rebuildDynWidgets_err_indep wf _ { widgets := [], inputs := [], nextId := 0 }, hsnd]

/-- The source branch on `typeof` coincides with a direct case split on the
value: integral numbers give INT, other numbers FLOAT, booleans BOOLEAN,
strings STRING, everything else no widget. -/
theorem dynFieldWidget_explicit (nodeId : String) (kv : String × JSValue) :
    dynFieldWidget nodeId kv =
      match kv.2 with
      | .str s => some ("STRING", "dyn_" ++ nodeId ++ "_" ++ kv.1, JSValue.str s)
      | .num q => some ((if q.den = 1 then "INT" else "FLOAT"),
          "dyn_" ++ nodeId ++ "_" ++ kv.1, JSValue.num q)
      | .nan => some ("FLOAT", "dyn_" ++ nodeId ++ "_" ++ kv.1, JSValue.nan)
      | .bool b => some ("BOOLEAN", "dyn_" ++ nodeId ++ "_" ++ kv.1, JSValue.bool b)
      | _ => none := by
  obtain ⟨k, v⟩ := kv
  cases v <;> simp [dynFieldWidget, jsTypeof, numberIsInteger]

/-- `responseDynWidgets` in the explicit per-value form. -/
theorem responseDynWidgets_explicit (wf : JSValue) :
    responseDynWidgets wf =
      (forInEntries wf).flatMap (fun p =>
        match jsGetProp p.2 "inputs" with
        | .error _ => []
        | .ok v =>
            (forInEntries (if jsTruthy v then v else JSValue.obj [])).filterMap (fun kv =>
              match kv.2 with
              | .str s => some ("STRING", "dyn_" ++ p.1 ++ "_" ++ kv.1, JSValue.str s)
              | .num q => some ((if q.den = 1 then "INT" else "FLOAT"),
                  "dyn_" ++ p.1 ++ "_" ++ kv.1, JSValue.num q)
              | .nan => some ("FLOAT", "dyn_" ++ p.1 ++ "_" ++ kv.1, JSValue.nan)
              | .bool b => some ("BOOLEAN", "dyn_" ++ p.1 ++ "_" ++ kv.1, JSValue.bool b)
              | _ => none)) := by
  unfold responseDynWidgets
  have hfun : ∀ p : String × JSValue, nodeDynWidgets p =
      (match jsGetProp p.2 "inputs" with
      | .error _ => []
      | .ok v =>
          (forInEntries (if jsTruthy v then v else JSValue.obj [])).filterMap (fun kv =>
            match kv.2 with
            | .str s => some ("STRING", "dyn_" ++ p.1 ++ "_" ++ kv.1, JSValue.str s)
            | .num q => some ((if q.den = 1 then "INT" else "FLOAT"),
                "dyn_" ++ p.1 ++ "_" ++ kv.1, JSValue.num q)
            | .nan => some ("FLOAT", "dyn_" ++ p.1 ++ "_" ++ kv.1, JSValue.nan)
            | .bool b => some ("BOOLEAN", "dyn_" ++ p.1 ++ "_" ++ kv.1, JSValue.bool b)
            | _ => none)) := by
    intro p
    unfold nodeDynWidgets
    cases hj : jsGetProp p.2 "inputs" with
    | error e => rfl
    | ok v =>
        have : dynFieldWidget p.1 = (fun kv =>
            match kv.2 with
            | .str s => some ("STRING", "dyn_" ++ p.1 ++ "_" ++ kv.1, JSValue.str s)
            | .num q => some ((if q.den = 1 then "INT" else "FLOAT"),
                "dyn_" ++ p.1 ++ "_" ++ kv.1, JSValue.num q)
            | .nan => some ("FLOAT", "dyn_" ++ p.1 ++ "_" ++ kv.1, JSValue.nan)
            | .bool b => some ("BOOLEAN", "dyn_" ++ p.1 ++ "_" ++ kv.1, JSValue.bool b)
            | _ => none) := funext (fun kv => dynFieldWidget_explicit p.1 kv)
        rw [this]
  rw [funext hfun]

/-! ## Claim theorems -/

/-- C2: whenever the path widget is absent or its value is empty/falsy, both
variants of the refresh handler perform no network request and no host
node-execution call (the trace holds only the missing-path alert), show that
alert, and return with the widget and input lists (indeed the whole node
state) unchanged. -/
theorem refresh_missing_path_no_call (pwv : Option JSValue) (btnId selfId : Nat)
    (env : FetchEnv) (runRes : Except String JSValue) (st : NodeState)
    (h : (match pwv with | none => false | some v => jsTruthy v) = false) :
    updateDynamicInputs pwv btnId env st =
      { state := st, effects := [Effect.alertEv "Please provide a valid workflow path."],
        threw := none } ∧
    updateDynamicInputsHost pwv btnId selfId runRes st =
      { state := st, effects := [Effect.alertEv "Please provide a valid workflow path."],
        threw := none } :=
  ⟨updateDynamicInputs_missing pwv btnId env st h,
   updateDynamicInputsHost_missing pwv btnId selfId runRes st h⟩

theorem refresh_missing_path_no_call_witness :
    ((match (some (JSValue.str "") : Option JSValue) with
      | none => false | some v => jsTruthy v) = false) ∧
    (updateDynamicInputs (some (JSValue.str "")) 1 sampleEnv sampleState =
      { state := sampleState,
        effects := [Effect.alertEv "Please provide a valid workflow path."],
        threw := none } ∧
     updateDynamicInputsHost (some (JSValue.str "")) 1 7 (.ok sampleWorkflow) sampleState =
      { state := sampleState,
        effects := [Effect.alertEv "Please provide a valid workflow path."],
        threw := none }) :=
  ⟨rfl, refresh_missing_path_no_call (some (JSValue.str "")) 1 7 sampleEnv
    (.ok sampleWorkflow) sampleState rfl⟩

/-- C3: with a non-empty path, when the data source fails (fetch rejection,
non-ok status, JSON parse failure — or, in the host variant, a falsy
`runNode` result), both variants catch the error (`threw = none`), leave the
node state — widgets and inputs — exactly as it was, log the error, raise the
alert, and restore the button label to the idle text as the last effect. -/
theorem refresh_fetch_failure_atomic (pv : JSValue) (btnId selfId : Nat) (env : FetchEnv)
    (runRes : Except String JSValue) (st : NodeState) (e eh : String)
    (hp : jsTruthy pv = true)
    (hbtn : ∀ w ∈ st.widgets, w.id = btnId → w.name = "📝 Refresh Inputs")
    (hf : (fetchWorkflowJSON pv env).2 = .error e)
    (hfh : (fetchWorkflowJSONHost pv selfId runRes).2 = .error eh) :
    ((updateDynamicInputs (some pv) btnId env st).state = st ∧
     (updateDynamicInputs (some pv) btnId env st).threw = none ∧
     (updateDynamicInputs (some pv) btnId env st).effects =
       Effect.setLabel "⏳ Loading..." :: (fetchWorkflowJSON pv env).1 ++
         [Effect.consoleError ("Error loading workflow JSON: " ++ e),
          Effect.alertEv "Error loading workflow JSON. See console.",
          Effect.setLabel "📝 Refresh Inputs"]) ∧
    ((updateDynamicInputsHost (some pv) btnId selfId runRes st).state = st ∧
     (updateDynamicInputsHost (some pv) btnId selfId runRes st).threw = none ∧
     (updateDynamicInputsHost (some pv) btnId selfId runRes st).effects =
       Effect.setLabel "⏳ Loading..." :: (fetchWorkflowJSONHost pv selfId runRes).1 ++
         [Effect.consoleError ("Error loading workflow JSON: " ++ eh),
          Effect.alertEv "Error loading workflow JSON. See console.",
          Effect.setLabel "📝 Refresh Inputs"]) := by
  constructor
  · rw [updateDynamicInputs_fetch_error pv btnId env st e hp hf]
    exact ⟨setButtonName_restore st btnId _ _ hbtn, rfl, rfl⟩
  · rw [updateDynamicInputsHost_fetch_error pv btnId selfId runRes st eh hp hfh]
    exact ⟨setButtonName_restore st btnId _ _ hbtn, rfl, rfl⟩

theorem refresh_fetch_failure_atomic_witness :
    (jsTruthy (JSValue.str "wf.json") = true) ∧
    (∀ w ∈ sampleState.widgets, w.id = 1 → w.name = "📝 Refresh Inputs") ∧
    ((fetchWorkflowJSON (JSValue.str "wf.json") sampleEnvFail).2 =
      .error "Failed to load JSON: Not Found") ∧
    ((fetchWorkflowJSONHost (JSValue.str "wf.json") 7 (.ok JSValue.null)).2 =
      .error "No workflow JSON returned") ∧
    (((updateDynamicInputs (some (JSValue.str "wf.json")) 1 sampleEnvFail sampleState).state =
        sampleState ∧
      (updateDynamicInputs (some (JSValue.str "wf.json")) 1 sampleEnvFail sampleState).threw =
        none ∧
      (updateDynamicInputs (some (JSValue.str "wf.json")) 1 sampleEnvFail sampleState).effects =
        Effect.setLabel "⏳ Loading..." ::
          (fetchWorkflowJSON (JSValue.str "wf.json") sampleEnvFail).1 ++
          [Effect.consoleError ("Error loading workflow JSON: " ++ "Failed to load JSON: Not Found"),
           Effect.alertEv "Error loading workflow JSON. See console.",
           Effect.setLabel "📝 Refresh Inputs"]) ∧
     ((updateDynamicInputsHost (some (JSValue.str "wf.json")) 1 7 (.ok JSValue.null)
          sampleState).state = sampleState ∧
      (updateDynamicInputsHost (some (JSValue.str "wf.json")) 1 7 (.ok JSValue.null)
          sampleState).threw = none ∧
      (updateDynamicInputsHost (some (JSValue.str "wf.json")) 1 7 (.ok JSValue.null)
          sampleState).effects =
        Effect.setLabel "⏳ Loading..." ::
          (fetchWorkflowJSONHost (JSValue.str "wf.json") 7 (.ok JSValue.null)).1 ++
          [Effect.consoleError ("Error loading workflow JSON: " ++ "No workflow JSON returned"),
           Effect.alertEv "Error loading workflow JSON. See console.",
           Effect.setLabel "📝 Refresh Inputs"])) :=
  ⟨rfl, by decide, rfl, rfl,
   refresh_fetch_failure_atomic (JSValue.str "wf.json") 1 7 sampleEnvFail (.ok JSValue.null)
     sampleState "Failed to load JSON: Not Found" "No workflow JSON returned"
     rfl (by decide) rfl rfl⟩

/-- C5: in the HTTP variant, for every non-empty path string the fetch helper
issues exactly one HTTP POST to that path, with header
`Content-Type: application/json` and the JSON body `\x7b "path": <path> \x7d`;
it returns the parsed JSON body when the response status is ok, and yields an
error (no result) whenever the status is not ok. -/
theorem fetch_posts_path_json (p : String) (env : FetchEnv) (h : p ≠ "") :
    ((fetchWorkflowJSON (JSValue.str p) env).1 =
      [Effect.httpPost (JSValue.str p) "POST" "application/json"
        ("\x7b\"path\":" ++ ("\"" ++ String.join (p.toList.map jsonEscapeChar) ++ "\"") ++
          "\x7d")]) ∧
    (∀ resp : HttpResponse, env = .response resp → resp.ok = true →
      ∀ j : JSValue, resp.jsonBody = .ok j →
        (fetchWorkflowJSON (JSValue.str p) env).2 = .ok j) ∧
    (∀ resp : HttpResponse, env = .response resp → resp.ok = false →
      (fetchWorkflowJSON (JSValue.str p) env).2 =
        .error ("Failed to load JSON: " ++ resp.statusText)) := by
  have hp : jsTruthy (JSValue.str p) = true := by
    simp [jsTruthy, h]
  have hbody : stringifyPathBody (JSValue.str p) =
      "\x7b\"path\":" ++ ("\"" ++ String.join (p.toList.map jsonEscapeChar) ++ "\"") ++
        "\x7d" := by
    simp [stringifyPathBody, jsonSerialize]
  refine ⟨?_, ?_, ?_⟩
  · rw [fetchWorkflowJSON_fx_of_truthy (JSValue.str p) env hp, hbody]
  · intro resp henv hok j hj
    subst henv
    exact fetchWorkflowJSON_ok_result (JSValue.str p) resp j hp hok hj
  · intro resp henv hok
    subst henv
    exact fetchWorkflowJSON_notok_result (JSValue.str p) resp hp hok

theorem fetch_posts_path_json_witness :
    ("wf.json" ≠ "") ∧
    (((fetchWorkflowJSON (JSValue.str "wf.json") sampleEnv).1 =
      [Effect.httpPost (JSValue.str "wf.json") "POST" "application/json"
        ("\x7b\"path\":" ++
          ("\"" ++ String.join ("wf.json".toList.map jsonEscapeChar) ++ "\"") ++ "\x7d")]) ∧
    (∀ resp : HttpResponse, sampleEnv = .response resp → resp.ok = true →
      ∀ j : JSValue, resp.jsonBody = .ok j →
        (fetchWorkflowJSON (JSValue.str "wf.json") sampleEnv).2 = .ok j) ∧
    (∀ resp : HttpResponse, sampleEnv = .response resp → resp.ok = false →
      (fetchWorkflowJSON (JSValue.str "wf.json") sampleEnv).2 =
        .error ("Failed to load JSON: " ++ resp.statusText))) :=
  ⟨by decide, fetch_posts_path_json "wf.json" sampleEnv (by decide)⟩

/-- C7: the canvas-dirty effect is emitted exactly once per successful
refresh, after the rebuild — the trace is the loading label, the fetch, the
restored label, then the single dirty mark and the debug log — and is not
emitted at all on the missing-path and fetch-failure paths. -/
theorem canvas_dirty_once_on_success :
    (∀ (pwv : Option JSValue) (btnId : Nat) (env : FetchEnv) (st : NodeState),
      (match pwv with | none => false | some v => jsTruthy v) = false →
      (updateDynamicInputs pwv btnId env st).effects.countP isSetDirty = 0) ∧
    (∀ (pv : JSValue) (btnId : Nat) (env : FetchEnv) (st : NodeState) (e : String),
      jsTruthy pv = true → (fetchWorkflowJSON pv env).2 = .error e →
      (updateDynamicInputs (some pv) btnId env st).effects.countP isSetDirty = 0) ∧
    (∀ (pv : JSValue) (btnId : Nat) (env : FetchEnv) (st : NodeState) (wf : JSValue),
      jsTruthy pv = true → (fetchWorkflowJSON pv env).2 = .ok wf →
      (updateDynamicInputs (some pv) btnId env st).threw = none →
      (updateDynamicInputs (some pv) btnId env st).effects.countP isSetDirty = 1 ∧
      (updateDynamicInputs (some pv) btnId env st).effects =
        Effect.setLabel "⏳ Loading..." :: (fetchWorkflowJSON pv env).1 ++
          [Effect.setLabel "📝 Refresh Inputs", Effect.setDirtyEv,
           Effect.consoleDebug "Dynamic inputs updated"]) := by
  refine ⟨?_, ?_, ?_⟩
  · intro pwv btnId env st h
    rw [updateDynamicInputs_missing pwv btnId env st h]
    rfl
  · intro pv btnId env st e hp hf
    rw [updateDynamicInputs_fetch_error pv btnId env st e hp hf]
    simp [List.countP_cons, List.countP_append, fetch_fx_no_setDirty, isSetDirty]
  · intro pv btnId env st wf hp hf hok
    rcases hreb : rebuildDynWidgets
        { widgets := (setButtonName st btnId "⏳ Loading...").widgets.filter
            (fun w => !(jsStartsWith w.name "dyn_")),
          inputs := (setButtonName st btnId "⏳ Loading...").inputs.filter
            (fun i => !(jsStartsWith i.name "dyn_")),
          nextId := (setButtonName st btnId "⏳ Loading...").nextId } wf with ⟨st3, oe⟩
    cases oe with
    | some e =>
        rw [updateDynamicInputs_rebuild_throw pv btnId env st wf st3 e hp hf hreb] at hok
        exact absurd hok (by simp)
    | none =>
        rw [updateDynamicInputs_success_eq pv btnId env st wf st3 hp hf hreb]
        refine ⟨?_, rfl⟩
        simp [List.countP_cons, List.countP_append, fetch_fx_no_setDirty, isSetDirty]

theorem canvas_dirty_once_on_success_witness :
    ((match (none : Option JSValue) with | none => false | some v => jsTruthy v) = false) ∧
    (jsTruthy (JSValue.str "wf.json") = true) ∧
    ((fetchWorkflowJSON (JSValue.str "wf.json") sampleEnvFail).2 =
      .error "Failed to load JSON: Not Found") ∧
    ((fetchWorkflowJSON (JSValue.str "wf.json") sampleEnv).2 = .ok sampleWorkflow) ∧
    ((updateDynamicInputs (some (JSValue.str "wf.json")) 1 sampleEnv sampleState).threw =
      none) ∧
    ((updateDynamicInputs (none : Option JSValue) 1 sampleEnv
        sampleState).effects.countP isSetDirty = 0) ∧
    ((updateDynamicInputs (some (JSValue.str "wf.json")) 1 sampleEnvFail
        sampleState).effects.countP isSetDirty = 0) ∧
    ((updateDynamicInputs (some (JSValue.str "wf.json")) 1 sampleEnv
        sampleState).effects.countP isSetDirty = 1 ∧
     (updateDynamicInputs (some (JSValue.str "wf.json")) 1 sampleEnv sampleState).effects =
       Effect.setLabel "⏳ Loading..." ::
         (fetchWorkflowJSON (JSValue.str "wf.json") sampleEnv).1 ++
         [Effect.setLabel "📝 Refresh Inputs", Effect.setDirtyEv,
          Effect.consoleDebug "Dynamic inputs updated"]) :=
  ⟨rfl, rfl, rfl, rfl, rfl,
   canvas_dirty_once_on_success.1 none 1 sampleEnv sampleState rfl,
   canvas_dirty_once_on_success.2.1 (JSValue.str "wf.json") 1 sampleEnvFail sampleState
     "Failed to load JSON: Not Found" rfl rfl,
   canvas_dirty_once_on_success.2.2 (JSValue.str "wf.json") 1 sampleEnv sampleState
     sampleWorkflow rfl rfl rfl⟩

/-- C6: the label protocol of the HTTP-variant handler.  (a) Every refresh
attempted with a non-empty path first sets the label to the loading text;
(b) after every completed (non-throwing) invocation — success, fetch failure,
or missing path — the button widget carries the idle text again, provided it
carried it at entry; (c) every label ever assigned is one of exactly the two
texts. -/
theorem button_label_protocol :
    (∀ (pv : JSValue) (btnId : Nat) (env : FetchEnv) (st : NodeState),
      jsTruthy pv = true →
      (updateDynamicInputs (some pv) btnId env st).effects.head? =
        some (Effect.setLabel "⏳ Loading...")) ∧
    (∀ (pwv : Option JSValue) (btnId : Nat) (env : FetchEnv) (st : NodeState),
      (∀ w ∈ st.widgets, w.id = btnId → w.name = "📝 Refresh Inputs") →
      (updateDynamicInputs pwv btnId env st).threw = none →
      ∀ w ∈ (updateDynamicInputs pwv btnId env st).state.widgets,
        w.id = btnId → w.name = "📝 Refresh Inputs") ∧
    (∀ (pwv : Option JSValue) (btnId : Nat) (env : FetchEnv) (st : NodeState) (l : String),
      Effect.setLabel l ∈ (updateDynamicInputs pwv btnId env st).effects →
      l = "⏳ Loading..." ∨ l = "📝 Refresh Inputs") := by
  have hbranch : ∀ (pwv : Option JSValue) (btnId : Nat) (env : FetchEnv) (st : NodeState),
      ((match pwv with | none => false | some v => jsTruthy v) = false) ∨
      ∃ pv, pwv = some pv ∧ jsTruthy pv = true := by
    intro pwv btnId env st
    cases pwv with
    | none => exact Or.inl rfl
    | some pv =>
        cases htr : jsTruthy pv with
        | false => exact Or.inl htr
        | true => exact Or.inr ⟨pv, rfl, htr⟩
  refine ⟨?_, ?_, ?_⟩
  · intro pv btnId env st hp
    rcases hfr : (fetchWorkflowJSON pv env).2 with e | wf
    · rw [updateDynamicInputs_fetch_error pv btnId env st e hp hfr]
      rfl
    · rcases hreb : rebuildDynWidgets
          { widgets := (setButtonName st btnId "⏳ Loading...").widgets.filter
              (fun w => !(jsStartsWith w.name "dyn_")),
            inputs := (setButtonName st btnId "⏳ Loading...").inputs.filter
              (fun i => !(jsStartsWith i.name "dyn_")),
            nextId := (setButtonName st btnId "⏳ Loading...").nextId } wf with ⟨st3, oe⟩
      cases oe with
      | some e =>
          rw [updateDynamicInputs_rebuild_throw pv btnId env st wf st3 e hp hfr hreb]
          rfl
      | none =>
          rw [updateDynamicInputs_success_eq pv btnId env st wf st3 hp hfr hreb]
          rfl
  · intro pwv btnId env st hbtn hok
    rcases hbranch pwv btnId env st with hmiss | ⟨pv, rfl, hp⟩
    · rw [updateDynamicInputs_missing pwv btnId env st hmiss]
      exact hbtn
    · rcases hfr : (fetchWorkflowJSON pv env).2 with e | wf
      · rw [updateDynamicInputs_fetch_error pv btnId env st e hp hfr]
        exact mem_setButtonName_name _ btnId _
      · rcases hreb : rebuildDynWidgets
            { widgets := (setButtonName st btnId "⏳ Loading...").widgets.filter
                (fun w => !(jsStartsWith w.name "dyn_")),
              inputs := (setButtonName st btnId "⏳ Loading...").inputs.filter
                (fun i => !(jsStartsWith i.name "dyn_")),
              nextId := (setButtonName st btnId "⏳ Loading...").nextId } wf with ⟨st3, oe⟩
        cases oe with
        | some e =>
            rw [updateDynamicInputs_rebuild_throw pv btnId env st wf st3 e hp hfr hreb] at hok
            exact absurd hok (by simp)
        | none =>
            rw [updateDynamicInputs_success_eq pv btnId env st wf st3 hp hfr hreb]
            exact mem_setButtonName_name _ btnId _
  · intro pwv btnId env st l hl
    rcases hbranch pwv btnId env st with hmiss | ⟨pv, rfl, hp⟩
    · rw [updateDynamicInputs_missing pwv btnId env st hmiss] at hl
      simp at hl
    · rcases hfr : (fetchWorkflowJSON pv env).2 with e | wf
      · rw [updateDynamicInputs_fetch_error pv btnId env st e hp hfr] at hl
        simp only [List.mem_cons, List.mem_append, Effect.setLabel.injEq,
          List.mem_singleton, reduceCtorEq, or_false, false_or] at hl
        rcases hl with (hl | hl) | hl | hl
        · exact Or.inl hl
        · exact absurd hl (fetch_fx_no_setLabel pv env l)
        · exact Or.inr hl
        · exact absurd hl (by simp)
      · rcases hreb : rebuildDynWidgets
            { widgets := (setButtonName st btnId "⏳ Loading...").widgets.filter
                (fun w => !(jsStartsWith w.name "dyn_")),
              inputs := (setButtonName st btnId "⏳ Loading...").inputs.filter
                (fun i => !(jsStartsWith i.name "dyn_")),
              nextId := (setButtonName st btnId "⏳ Loading...").nextId } wf with ⟨st3, oe⟩
        cases oe with
        | some e =>
            rw [updateDynamicInputs_rebuild_throw pv btnId env st wf st3 e hp hfr hreb] at hl
            simp only [List.mem_cons, Effect.setLabel.injEq] at hl
            rcases hl with hl | hl
            · exact Or.inl hl
            · exact absurd hl (fetch_fx_no_setLabel pv env l)
        | none =>
            rw [updateDynamicInputs_success_eq pv btnId env st wf st3 hp hfr hreb] at hl
            simp only [List.mem_cons, List.mem_append, Effect.setLabel.injEq,
              List.mem_singleton, reduceCtorEq, or_false, false_or] at hl
            rcases hl with (hl | hl) | hl | hl
            · exact Or.inl hl
            · exact absurd hl (fetch_fx_no_setLabel pv env l)
            · exact Or.inr hl
            · exact absurd hl (by simp)

theorem button_label_protocol_witness :
    (jsTruthy (JSValue.str "wf.json") = true) ∧
    (∀ w ∈ sampleState.widgets, w.id = 1 → w.name = "📝 Refresh Inputs") ∧
    ((updateDynamicInputs (some (JSValue.str "wf.json")) 1 sampleEnv sampleState).threw =
      none) ∧
    ((updateDynamicInputs (some (JSValue.str "wf.json")) 1 sampleEnv
        sampleState).effects.head? = some (Effect.setLabel "⏳ Loading...")) ∧
    (∀ w ∈ (updateDynamicInputs (some (JSValue.str "wf.json")) 1 sampleEnv
        sampleState).state.widgets, w.id = 1 → w.name = "📝 Refresh Inputs") ∧
    (∀ l : String,
      Effect.setLabel l ∈ (updateDynamicInputs (some (JSValue.str "wf.json")) 1 sampleEnv
        sampleState).effects →
      l = "⏳ Loading..." ∨ l = "📝 Refresh Inputs") :=
  ⟨rfl, by decide, rfl,
   button_label_protocol.1 (JSValue.str "wf.json") 1 sampleEnv sampleState rfl,
   button_label_protocol.2.1 (some (JSValue.str "wf.json")) 1 sampleEnv sampleState
     (by decide) rfl,
   fun l => button_label_protocol.2.2 (some (JSValue.str "wf.json")) 1 sampleEnv sampleState l⟩

/-- C9: a node entry whose value is an object but whose `inputs` field is
absent, `undefined`, or otherwise falsy is treated as an empty input set: it
contributes no widgets, raises no error, and deleting it from the response
leaves the whole rebuild unchanged (the loop continues with the remaining
entries). -/
theorem falsy_inputs_treated_empty (st : NodeState) (nodeId : String)
    (nf : List (String × JSValue)) (pre post : List (String × JSValue))
    (h : jsTruthy ((nf.lookup "inputs").getD JSValue.undefined) = false) :
    addDynWidgetsForNode st nodeId (JSValue.obj nf) = (st, none) ∧
    rebuildDynWidgets st (JSValue.obj (pre ++ (nodeId, JSValue.obj nf) :: post)) =
      rebuildDynWidgets st (JSValue.obj (pre ++ post)) := by
  have h1 : ∀ s : NodeState, addDynWidgetsForNode s nodeId (JSValue.obj nf) = (s, none) := by
    intro s
    unfold addDynWidgetsForNode
    simp only [jsGetProp, h, if_false, Bool.false_eq_true]
    rfl
  refine ⟨h1 st, ?_⟩
  unfold rebuildDynWidgets
  show (pre ++ (nodeId, JSValue.obj nf) :: post).foldl dynStepNode (st, none) =
    (pre ++ post).foldl dynStepNode (st, none)
  rw [List.foldl_append, List.foldl_append, List.foldl_cons]
  rcases hpre : pre.foldl dynStepNode (st, none) with ⟨s1, oe⟩
  cases oe with
  | some e =>
      have : dynStepNode (s1, some e) (nodeId, JSValue.obj nf) = (s1, some e) := rfl
      rw [this]
  | none =>
      have : dynStepNode (s1, none) (nodeId, JSValue.obj nf) = (s1, none) := by
        show addDynWidgetsForNode s1 nodeId (JSValue.obj nf) = (s1, none)
        exact h1 s1
      rw [this]

theorem falsy_inputs_treated_empty_witness :
    (jsTruthy (([("class_type", JSValue.str "X")].lookup "inputs").getD JSValue.undefined) =
      false) ∧
    (addDynWidgetsForNode sampleState "4" (JSValue.obj [("class_type", JSValue.str "X")]) =
      (sampleState, none) ∧
     rebuildDynWidgets sampleState
        (JSValue.obj ([("7", JSValue.obj [("inputs", JSValue.obj [("k", JSValue.num 1)])])] ++
          ("4", JSValue.obj [("class_type", JSValue.str "X")]) ::
            [("8", JSValue.obj [("inputs", JSValue.obj [("t", JSValue.str "x")])])])) =
      rebuildDynWidgets sampleState
        (JSValue.obj ([("7", JSValue.obj [("inputs", JSValue.obj [("k", JSValue.num 1)])])] ++
          [("8", JSValue.obj [("inputs", JSValue.obj [("t", JSValue.str "x")])])]))) :=
  ⟨rfl, falsy_inputs_treated_empty sampleState "4" [("class_type", JSValue.str "X")]
    [("7", JSValue.obj [("inputs", JSValue.obj [("k", JSValue.num 1)])])]
    [("8", JSValue.obj [("inputs", JSValue.obj [("t", JSValue.str "x")])])] rfl⟩

/-- C1: on a completed successful refresh, the `dyn_`-named widgets of the
final state are exactly one widget per scalar field found under each node's
`inputs` in the response — named `dyn_<nodeId>_<key>` and carrying the field
value — with the kind given by the value's type: integral numbers INT, other
numbers FLOAT, booleans BOOLEAN, strings STRING; object, array, `null` and
`undefined` fields contribute no widget. -/
theorem dyn_widget_per_scalar_field (pv : JSValue) (btnId : Nat) (env : FetchEnv)
    (st : NodeState) (wf : JSValue)
    (hp : jsTruthy pv = true)
    (hf : (fetchWorkflowJSON pv env).2 = .ok wf)
    (hbtn : ∀ w ∈ st.widgets, w.id = btnId → w.name = "📝 Refresh Inputs")
    (hid : btnId < st.nextId)
    (hok : (updateDynamicInputs (some pv) btnId env st).threw = none) :
    ((updateDynamicInputs (some pv) btnId env st).state.widgets.filter
        (fun w => jsStartsWith w.name "dyn_")).map (fun w => (w.wtype, w.name, w.value)) =
      (forInEntries wf).flatMap (fun p =>
        match jsGetProp p.2 "inputs" with
        | .error _ => []
        | .ok v =>
            (forInEntries (if jsTruthy v then v else JSValue.obj [])).filterMap (fun kv =>
              match kv.2 with
              | .str s => some ("STRING", "dyn_" ++ p.1 ++ "_" ++ kv.1, JSValue.str s)
              | .num q => some ((if q.den = 1 then "INT" else "FLOAT"),
                  "dyn_" ++ p.1 ++ "_" ++ kv.1, JSValue.num q)
              | .nan => some ("FLOAT", "dyn_" ++ p.1 ++ "_" ++ kv.1, JSValue.nan)
              | .bool b => some ("BOOLEAN", "dyn_" ++ p.1 ++ "_" ++ kv.1, JSValue.bool b)
              | _ => none)) := by
  obtain ⟨ws, hstate, hsig, hprops, _⟩ :=
    updateDynamicInputs_ok_spec pv btnId env st wf hp hf hbtn hid hok
  rw [hstate]
  show ((st.widgets.filter (fun w => !(jsStartsWith w.name "dyn_")) ++ ws).filter
      (fun w => jsStartsWith w.name "dyn_")).map (fun w => (w.wtype, w.name, w.value)) = _
  rw [List.filter_append]
  have hbase : (st.widgets.filter (fun w => !(jsStartsWith w.name "dyn_"))).filter
      (fun w => jsStartsWith w.name "dyn_") = [] := by
    rw [List.filter_eq_nil_iff]
    intro w hw
    have := List.of_mem_filter hw
    simp at this
    simp [this]
  have hws : ws.filter (fun w => jsStartsWith w.name "dyn_") = ws :=
    List.filter_eq_self.2 (fun w hw => (hprops w hw).1)
  rw [hbase, hws, List.nil_append, hsig, responseDynWidgets_explicit]

/-- C10: on a completed successful refresh, every widget whose name does not
start with `dyn_` — the path widget and the (label-restored) refresh button
included — survives unchanged in its original relative order, and the input
list is exactly the old input list with the `dyn_`-named entries removed. -/
theorem non_dyn_widgets_preserved (pv : JSValue) (btnId : Nat) (env : FetchEnv)
    (st : NodeState) (wf : JSValue)
    (hp : jsTruthy pv = true)
    (hf : (fetchWorkflowJSON pv env).2 = .ok wf)
    (hbtn : ∀ w ∈ st.widgets, w.id = btnId → w.name = "📝 Refresh Inputs")
    (hid : btnId < st.nextId)
    (hok : (updateDynamicInputs (some pv) btnId env st).threw = none) :
    (updateDynamicInputs (some pv) btnId env st).state.widgets.filter
        (fun w => !(jsStartsWith w.name "dyn_")) =
      st.widgets.filter (fun w => !(jsStartsWith w.name "dyn_")) ∧
    (updateDynamicInputs (some pv) btnId env st).state.inputs =
      st.inputs.filter (fun i => !(jsStartsWith i.name "dyn_")) := by
  obtain ⟨ws, hstate, _, hprops, _⟩ :=
    updateDynamicInputs_ok_spec pv btnId env st wf hp hf hbtn hid hok
  rw [hstate]
  constructor
  · show (st.widgets.filter (fun w => !(jsStartsWith w.name "dyn_")) ++ ws).filter
        (fun w => !(jsStartsWith w.name "dyn_")) = _
    rw [List.filter_append]
    have h1 : (st.widgets.filter (fun w => !(jsStartsWith w.name "dyn_"))).filter
        (fun w => !(jsStartsWith w.name "dyn_")) =
        st.widgets.filter (fun w => !(jsStartsWith w.name "dyn_")) := by
      rw [List.filter_eq_self]
      intro w hw
      exact (List.mem_filter.1 hw).2
    have h2 : ws.filter (fun w => !(jsStartsWith w.name "dyn_")) = [] := by
      rw [List.filter_eq_nil_iff]
      intro w hw
      simp [(hprops w hw).1]
    rw [h1, h2, List.append_nil]
  · rfl

theorem dyn_widget_per_scalar_field_witness :
    (jsTruthy (JSValue.str "wf.json") = true) ∧
    ((fetchWorkflowJSON (JSValue.str "wf.json") sampleEnv).2 = .ok sampleWorkflow) ∧
    (∀ w ∈ sampleState.widgets, w.id = 1 → w.name = "📝 Refresh Inputs") ∧
    (1 < sampleState.nextId) ∧
    ((updateDynamicInputs (some (JSValue.str "wf.json")) 1 sampleEnv sampleState).threw =
      none) ∧
    (((updateDynamicInputs (some (JSValue.str "wf.json")) 1 sampleEnv
          sampleState).state.widgets.filter
        (fun w => jsStartsWith w.name "dyn_")).map (fun w => (w.wtype, w.name, w.value)) =
      (forInEntries sampleWorkflow).flatMap (fun p =>
        match jsGetProp p.2 "inputs" with
        | .error _ => []
        | .ok v =>
            (forInEntries (if jsTruthy v then v else JSValue.obj [])).filterMap (fun kv =>
              match kv.2 with
              | .str s => some ("STRING", "dyn_" ++ p.1 ++ "_" ++ kv.1, JSValue.str s)
              | .num q => some ((if q.den = 1 then "INT" else "FLOAT"),
                  "dyn_" ++ p.1 ++ "_" ++ kv.1, JSValue.num q)
              | .nan => some ("FLOAT", "dyn_" ++ p.1 ++ "_" ++ kv.1, JSValue.nan)
              | .bool b => some ("BOOLEAN", "dyn_" ++ p.1 ++ "_" ++ kv.1, JSValue.bool b)
              | _ => none))) :=
  ⟨rfl, rfl, by decide, by decide, rfl,
   dyn_widget_per_scalar_field (JSValue.str "wf.json") 1 sampleEnv sampleState sampleWorkflow
     rfl rfl (by decide) (by decide) rfl⟩

theorem non_dyn_widgets_preserved_witness :
    (jsTruthy (JSValue.str "wf.json") = true) ∧
    ((fetchWorkflowJSON (JSValue.str "wf.json") sampleEnv).2 = .ok sampleWorkflow) ∧
    (∀ w ∈ sampleState.widgets, w.id = 1 → w.name = "📝 Refresh Inputs") ∧
    (1 < sampleState.nextId) ∧
    ((updateDynamicInputs (some (JSValue.str "wf.json")) 1 sampleEnv sampleState).threw =
      none) ∧
    ((updateDynamicInputs (some (JSValue.str "wf.json")) 1 sampleEnv
        sampleState).state.widgets.filter (fun w => !(jsStartsWith w.name "dyn_")) =
      sampleState.widgets.filter (fun w => !(jsStartsWith w.name "dyn_")) ∧
     (updateDynamicInputs (some (JSValue.str "wf.json")) 1 sampleEnv
        sampleState).state.inputs =
      sampleState.inputs.filter (fun i => !(jsStartsWith i.name "dyn_"))) :=
  ⟨rfl, rfl, by decide, by decide, rfl,
   non_dyn_widgets_preserved (JSValue.str "wf.json") 1 sampleEnv sampleState sampleWorkflow
     rfl rfl (by decide) (by decide) rfl⟩

/-- C4: the `dyn_` removal at lines 57-59 makes the set of `dyn_`-named
widgets after a successful refresh depend only on the response (two different
starting states yield the same dynamic widgets), and re-invoking the handler
with the same response reproduces the same widget signatures and inputs — no
duplicate accumulation. -/
theorem refresh_no_duplicate_accumulation (pv : JSValue) (btnId : Nat) (env : FetchEnv)
    (st st2 : NodeState) (wf : JSValue)
    (hp : jsTruthy pv = true)
    (hf : (fetchWorkflowJSON pv env).2 = .ok wf)
    (hbtn : ∀ w ∈ st.widgets, w.id = btnId → w.name = "📝 Refresh Inputs")
    (hbtn2 : ∀ w ∈ st2.widgets, w.id = btnId → w.name = "📝 Refresh Inputs")
    (hid : btnId < st.nextId) (hid2 : btnId < st2.nextId)
    (hok : (updateDynamicInputs (some pv) btnId env st).threw = none)
    (hok2 : (updateDynamicInputs (some pv) btnId env st2).threw = none) :
    (((updateDynamicInputs (some pv) btnId env st).state.widgets.filter
        (fun w => jsStartsWith w.name "dyn_")).map (fun w => (w.wtype, w.name, w.value)) =
      ((updateDynamicInputs (some pv) btnId env st2).state.widgets.filter
        (fun w => jsStartsWith w.name "dyn_")).map (fun w => (w.wtype, w.name, w.value))) ∧
    ((updateDynamicInputs (some pv) btnId env
        (updateDynamicInputs (some pv) btnId env st).state).state.widgets.map
        (fun w => (w.wtype, w.name, w.value)) =
      (updateDynamicInputs (some pv) btnId env st).state.widgets.map
        (fun w => (w.wtype, w.name, w.value))) ∧
    ((updateDynamicInputs (some pv) btnId env
        (updateDynamicInputs (some pv) btnId env st).state).state.inputs =
      (updateDynamicInputs (some pv) btnId env st).state.inputs) := by
  obtain ⟨ws, hstate, hsig, hprops, _⟩ :=
    updateDynamicInputs_ok_spec pv btnId env st wf hp hf hbtn hid hok
  obtain ⟨ws2, hstate2, hsig2, hprops2, _⟩ :=
    updateDynamicInputs_ok_spec pv btnId env st2 wf hp hf hbtn2 hid2 hok2
  have hposfilter : ∀ (s0 : NodeState) (ws0 : List Widget),
      (∀ w ∈ ws0, jsStartsWith w.name "dyn_" = true) →
      (s0.widgets.filter (fun w => !(jsStartsWith w.name "dyn_")) ++ ws0).filter
        (fun w => jsStartsWith w.name "dyn_") = ws0 := by
    intro s0 ws0 h0
    rw [List.filter_append]
    have hb : (s0.widgets.filter (fun w => !(jsStartsWith w.name "dyn_"))).filter
        (fun w => jsStartsWith w.name "dyn_") = [] := by
      rw [List.filter_eq_nil_iff]
      intro w hw
      have := (List.mem_filter.1 hw).2
      simp at this
      simp [this]
    rw [hb, List.filter_eq_self.2 (fun w hw => h0 w hw), List.nil_append]
  have hnegfilter : ∀ (s0 : NodeState) (ws0 : List Widget),
      (∀ w ∈ ws0, jsStartsWith w.name "dyn_" = true) →
      (s0.widgets.filter (fun w => !(jsStartsWith w.name "dyn_")) ++ ws0).filter
        (fun w => !(jsStartsWith w.name "dyn_")) =
        s0.widgets.filter (fun w => !(jsStartsWith w.name "dyn_")) := by
    intro s0 ws0 h0
    rw [List.filter_append]
    have h1 : (s0.widgets.filter (fun w => !(jsStartsWith w.name "dyn_"))).filter
        (fun w => !(jsStartsWith w.name "dyn_")) =
        s0.widgets.filter (fun w => !(jsStartsWith w.name "dyn_")) := by
      rw [List.filter_eq_self]
      intro w hw
      exact (List.mem_filter.1 hw).2
    have h2 : ws0.filter (fun w => !(jsStartsWith w.name "dyn_")) = [] := by
      rw [List.filter_eq_nil_iff]
      intro w hw
      simp [h0 w hw]
    rw [h1, h2, List.append_nil]
  have hbtn1 : ∀ w ∈ (updateDynamicInputs (some pv) btnId env st).state.widgets,
      w.id = btnId → w.name = "📝 Refresh Inputs" := by
    rw [hstate]
    intro w hw hidw
    rcases List.mem_append.1 hw with hw | hw
    · exact hbtn w (List.mem_filter.1 hw).1 hidw
    · have := (hprops w hw).2
      omega
  have hid1 : btnId < (updateDynamicInputs (some pv) btnId env st).state.nextId := by
    rw [hstate]
    show btnId < st.nextId + ws.length
    omega
  have hthrew0 := updateDynamicInputs_threw_eq pv btnId env st wf hp hf
  have hthrew1 := updateDynamicInputs_threw_eq pv btnId env
    (updateDynamicInputs (some pv) btnId env st).state wf hp hf
  have hok1 : (updateDynamicInputs (some pv) btnId env
      (updateDynamicInputs (some pv) btnId env st).state).threw = none := by
    rw [hthrew1, ← hthrew0]
    exact hok
  obtain ⟨wsR, hstateR, hsigR, hpropsR, _⟩ :=
    updateDynamicInputs_ok_spec pv btnId env
      (updateDynamicInputs (some pv) btnId env st).state wf hp hf hbtn1 hid1 hok1
  have hbaseR : (updateDynamicInputs (some pv) btnId env st).state.widgets.filter
      (fun w => !(jsStartsWith w.name "dyn_")) =
      st.widgets.filter (fun w => !(jsStartsWith w.name "dyn_")) := by
    rw [hstate]
    exact hnegfilter st ws (fun w hw => (hprops w hw).1)
  have hinpR : (updateDynamicInputs (some pv) btnId env st).state.inputs.filter
      (fun i => !(jsStartsWith i.name "dyn_")) =
      (updateDynamicInputs (some pv) btnId env st).state.inputs := by
    rw [hstate]
    show (st.inputs.filter (fun i => !(jsStartsWith i.name "dyn_"))).filter
        (fun i => !(jsStartsWith i.name "dyn_")) = _
    rw [List.filter_eq_self]
    intro i hi
    exact (List.mem_filter.1 hi).2
  refine ⟨?_, ?_, ?_⟩
  · rw [hstate, hstate2]
    show ((st.widgets.filter (fun w => !(jsStartsWith w.name "dyn_")) ++ ws).filter
        (fun w => jsStartsWith w.name "dyn_")).map (fun w => (w.wtype, w.name, w.value)) = _
    rw [hposfilter st ws (fun w hw => (hprops w hw).1),
      hposfilter st2 ws2 (fun w hw => (hprops2 w hw).1), hsig, hsig2]
  · rw [hstateR, hbaseR]
    show ((st.widgets.filter (fun w => !(jsStartsWith w.name "dyn_"))) ++ wsR).map
        (fun w => (w.wtype, w.name, w.value)) = _
    rw [hstate]
    show _ = ((st.widgets.filter (fun w => !(jsStartsWith w.name "dyn_"))) ++ ws).map
        (fun w => (w.wtype, w.name, w.value))
    rw [List.map_append, List.map_append, hsigR, hsig]
  · rw [hstateR]
    exact hinpR

theorem refresh_no_duplicate_accumulation_witness :
    (jsTruthy (JSValue.str "wf.json") = true) ∧
    ((fetchWorkflowJSON (JSValue.str "wf.json") sampleEnv).2 = .ok sampleWorkflow) ∧
    (∀ w ∈ sampleState.widgets, w.id = 1 → w.name = "📝 Refresh Inputs") ∧
    (∀ w ∈ (NodeState.mk [Widget.mk 5 "button" "📝 Refresh Inputs" JSValue.undefined] [] 6).widgets, w.id = 1 → w.name = "📝 Refresh Inputs") ∧
    (1 < sampleState.nextId) ∧
    (1 < (NodeState.mk [Widget.mk 5 "button" "📝 Refresh Inputs" JSValue.undefined] [] 6).nextId) ∧
    ((updateDynamicInputs (some (JSValue.str "wf.json")) 1 sampleEnv sampleState).threw =
      none) ∧
    ((updateDynamicInputs (some (JSValue.str "wf.json")) 1 sampleEnv
        (NodeState.mk [Widget.mk 5 "button" "📝 Refresh Inputs" JSValue.undefined] [] 6)).threw = none) ∧
    ((((updateDynamicInputs (some (JSValue.str "wf.json")) 1 sampleEnv
          sampleState).state.widgets.filter
        (fun w => jsStartsWith w.name "dyn_")).map (fun w => (w.wtype, w.name, w.value)) =
      ((updateDynamicInputs (some (JSValue.str "wf.json")) 1 sampleEnv
          (NodeState.mk [Widget.mk 5 "button" "📝 Refresh Inputs" JSValue.undefined] [] 6)).state.widgets.filter
        (fun w => jsStartsWith w.name "dyn_")).map (fun w => (w.wtype, w.name, w.value))) ∧
    ((updateDynamicInputs (some (JSValue.str "wf.json")) 1 sampleEnv
        (updateDynamicInputs (some (JSValue.str "wf.json")) 1 sampleEnv
          sampleState).state).state.widgets.map (fun w => (w.wtype, w.name, w.value)) =
      (updateDynamicInputs (some (JSValue.str "wf.json")) 1 sampleEnv
        sampleState).state.widgets.map (fun w => (w.wtype, w.name, w.value))) ∧
    ((updateDynamicInputs (some (JSValue.str "wf.json")) 1 sampleEnv
        (updateDynamicInputs (some (JSValue.str "wf.json")) 1 sampleEnv
          sampleState).state).state.inputs =
      (updateDynamicInputs (some (JSValue.str "wf.json")) 1 sampleEnv
        sampleState).state.inputs)) :=
  ⟨rfl, rfl, by decide, by decide, by decide, by decide, rfl, rfl,
   refresh_no_duplicate_accumulation (JSValue.str "wf.json") 1 sampleEnv sampleState
     (NodeState.mk [Widget.mk 5 "button" "📝 Refresh Inputs" JSValue.undefined] [] 6) sampleWorkflow
     rfl rfl (by decide) (by decide) (by decide) (by decide) rfl rfl⟩

/-- C8: the two variants run the same widget-rebuild logic.  Whenever their
data sources produce the same outcome (same workflow JSON, or both failing
with the same message), the two handlers produce the same final node state —
widget list, input list and button label included — the same thrown status,
and the same number of canvas-dirty marks; they differ only in the recorded
data-source effect. -/
theorem variants_same_rebuild (pwv : Option JSValue) (btnId selfId : Nat)
    (env : FetchEnv) (runRes : Except String JSValue) (st : NodeState)
    (h : (fetchWorkflowJSON (pwv.getD JSValue.undefined) env).2 =
         (fetchWorkflowJSONHost (pwv.getD JSValue.undefined) selfId runRes).2) :
    (updateDynamicInputs pwv btnId env st).state =
      (updateDynamicInputsHost pwv btnId selfId runRes st).state ∧
    (updateDynamicInputs pwv btnId env st).threw =
      (updateDynamicInputsHost pwv btnId selfId runRes st).threw ∧
    (updateDynamicInputs pwv btnId env st).effects.countP isSetDirty =
      (updateDynamicInputsHost pwv btnId selfId runRes st).effects.countP isSetDirty := by
  have hhostdirty : (fetchWorkflowJSONHost (pwv.getD JSValue.undefined) selfId
      runRes).1.countP isSetDirty = 0 :=
    fetchHost_fx_no_setDirty _ selfId runRes
  have hhttpdirty : (fetchWorkflowJSON (pwv.getD JSValue.undefined) env).1.countP
      isSetDirty = 0 :=
    fetch_fx_no_setDirty _ env
  cases pwv with
  | none =>
      rw [updateDynamicInputs_missing none btnId env st rfl,
        updateDynamicInputsHost_missing none btnId selfId runRes st rfl]
      exact ⟨rfl, rfl, rfl⟩
  | some pv =>
      simp only [Option.getD_some] at h hhostdirty hhttpdirty
      cases htr : jsTruthy pv with
      | false =>
          rw [updateDynamicInputs_missing (some pv) btnId env st htr,
            updateDynamicInputsHost_missing (some pv) btnId selfId runRes st htr]
          exact ⟨rfl, rfl, rfl⟩
      | true =>
          rcases hfr : (fetchWorkflowJSON pv env).2 with e | wf
          · have hfh : (fetchWorkflowJSONHost pv selfId runRes).2 = .error e := by
              rw [← h, hfr]
            rw [updateDynamicInputs_fetch_error pv btnId env st e htr hfr,
              updateDynamicInputsHost_fetch_error pv btnId selfId runRes st e htr hfh]
            refine ⟨rfl, rfl, ?_⟩
            simp [List.countP_cons, List.countP_append, isSetDirty, hhostdirty, hhttpdirty]
          · have hfh : (fetchWorkflowJSONHost pv selfId runRes).2 = .ok wf := by
              rw [← h, hfr]
            rcases hreb : rebuildDynWidgets
                { widgets := (setButtonName st btnId "⏳ Loading...").widgets.filter
                    (fun w => !(jsStartsWith w.name "dyn_")),
                  inputs := (setButtonName st btnId "⏳ Loading...").inputs.filter
                    (fun i => !(jsStartsWith i.name "dyn_")),
                  nextId := (setButtonName st btnId "⏳ Loading...").nextId } wf
              with ⟨st3, oe⟩
            cases oe with
            | some e =>
                rw [updateDynamicInputs_rebuild_throw pv btnId env st wf st3 e htr hfr hreb,
                  updateDynamicInputsHost_rebuild_throw pv btnId selfId runRes st wf st3 e
                    htr hfh hreb]
                refine ⟨rfl, rfl, ?_⟩
                simp [List.countP_cons, isSetDirty, hhostdirty, hhttpdirty]
            | none =>
                rw [updateDynamicInputs_success_eq pv btnId env st wf st3 htr hfr hreb,
                  updateDynamicInputsHost_success_eq pv btnId selfId runRes st wf st3
                    htr hfh hreb]
                refine ⟨rfl, rfl, ?_⟩
                simp [List.countP_cons, List.countP_append, isSetDirty, hhostdirty, hhttpdirty]

theorem variants_same_rebuild_witness :
    ((fetchWorkflowJSON ((some (JSValue.str "wf.json")).getD JSValue.undefined) sampleEnv).2 =
      (fetchWorkflowJSONHost ((some (JSValue.str "wf.json")).getD JSValue.undefined) 7
        (.ok sampleWorkflow)).2) ∧
    ((updateDynamicInputs (some (JSValue.str "wf.json")) 1 sampleEnv sampleState).state =
      (updateDynamicInputsHost (some (JSValue.str "wf.json")) 1 7 (.ok sampleWorkflow)
        sampleState).state ∧
     (updateDynamicInputs (some (JSValue.str "wf.json")) 1 sampleEnv sampleState).threw =
      (updateDynamicInputsHost (some (JSValue.str "wf.json")) 1 7 (.ok sampleWorkflow)
        sampleState).threw ∧
     (updateDynamicInputs (some (JSValue.str "wf.json")) 1 sampleEnv
        sampleState).effects.countP isSetDirty =
      (updateDynamicInputsHost (some (JSValue.str "wf.json")) 1 7 (.ok sampleWorkflow)
        sampleState).effects.countP isSetDirty) :=
  ⟨rfl, variants_same_rebuild (some (JSValue.str "wf.json")) 1 7 sampleEnv
    (.ok sampleWorkflow) sampleState rfl⟩

end DynamicWorkflowEditor
